import Mathlib

/-!
Verification of the pixconv colorimetric transform engine.

The Rust source is embedded shallowly: `f32` values are idealized as exact
rationals `ℚ`, arrays `[f32; 4]` become the structure `Pix`, and a call that
can reach `todo!()` (a panic) is embedded as a `RunResult` value so that the
panicking outcome is observable. Two files of the repository are declared and
called from the sources but are not themselves available (`src/matrix.rs` and
`src/color/transfer.rs`); their definitions below are modelled from the spec
and say so in their doc comments. Everything else is translated directly from
`src/color/mod.rs`, `src/color/rgb.rs`, `src/traits.rs` and
`src/impls/rgb.rs`.
-/

namespace Pixconv

/-- a 4-channel pixel value, the embedding of `[f32; 4]` (R, G, B, alpha). -/
structure Pix where
  r : ℚ
  g : ℚ
  b : ℚ
  a : ℚ
deriving DecidableEq, Repr

/-- outcome of a Rust call: a normal return, or a panic (the `todo!()` arms of
the source, which abort). -/
inductive RunResult (α : Type) where
  | ok (val : α)
  | panicked
deriving DecidableEq, Repr

/-- functorial action on the normal-return value of a `RunResult`. -/
def RunResult.map {α β : Type} (f : α → β) : RunResult α → RunResult β
  | .ok v => .ok (f v)
  | .panicked => .panicked

/-- a 3-vector of rationals, the embedding of `[f32; 3]`. -/
structure V3 where
  x : ℚ
  y : ℚ
  z : ℚ
deriving DecidableEq, Repr

/-- Modelled from the spec: `src/matrix.rs` (the 3x3 matrix kernel) is not
under src, only its callers are. Spec section 4.1: a column-major matrix
stores three basis columns. -/
structure ColMatrix where
  c0 : V3
  c1 : V3
  c2 : V3
deriving DecidableEq, Repr

/-- Modelled from the spec: `src/matrix.rs` is not under src. Spec section
4.1: a row-major matrix with rows `[r0,r1,r2]`; here flattened to nine
entries as the source constructs it, `RowMatrix([ ... 9 entries ... ])`
row by row. -/
structure RowMatrix where
  m00 : ℚ
  m01 : ℚ
  m02 : ℚ
  m10 : ℚ
  m11 : ℚ
  m12 : ℚ
  m20 : ℚ
  m21 : ℚ
  m22 : ℚ
deriving DecidableEq, Repr

/-- Modelled from the spec: column-major multiply, `out = Σ v[i] * column[i]`
(spec section 4.1). -/
def ColMatrix.mul_vec (m : ColMatrix) (v : V3) : V3 :=
  ⟨v.x * m.c0.x + v.y * m.c1.x + v.z * m.c2.x,
   v.x * m.c0.y + v.y * m.c1.y + v.z * m.c2.y,
   v.x * m.c0.z + v.y * m.c1.z + v.z * m.c2.z⟩

/-- Modelled from the spec: determinant of the 3x3 matrix whose entry at row
`i`, column `j` is component `i` of column `j` (spec section 4.1, cofactor
expansion along the first row). -/
def ColMatrix.det (m : ColMatrix) : ℚ :=
  m.c0.x * (m.c1.y * m.c2.z - m.c2.y * m.c1.z)
    - m.c1.x * (m.c0.y * m.c2.z - m.c2.y * m.c0.z)
    + m.c2.x * (m.c0.y * m.c1.z - m.c1.y * m.c0.z)

/-- Modelled from the spec: inversion by the standard cofactor/determinant
method for 3x3 matrices (spec section 4.1). A singular matrix is a fatal
configuration defect that must not occur for standard primaries; rational
division by the zero determinant would yield an unspecified (zero) matrix. -/
def ColMatrix.inv (m : ColMatrix) : ColMatrix :=
  let d := m.det
  ⟨⟨(m.c1.y * m.c2.z - m.c2.y * m.c1.z) / d,
    (m.c2.y * m.c0.z - m.c0.y * m.c2.z) / d,
    (m.c0.y * m.c1.z - m.c1.y * m.c0.z) / d⟩,
   ⟨(m.c2.x * m.c1.z - m.c1.x * m.c2.z) / d,
    (m.c0.x * m.c2.z - m.c2.x * m.c0.z) / d,
    (m.c1.x * m.c0.z - m.c0.x * m.c1.z) / d⟩,
   ⟨(m.c1.x * m.c2.y - m.c2.x * m.c1.y) / d,
    (m.c2.x * m.c0.y - m.c0.x * m.c2.y) / d,
    (m.c0.x * m.c1.y - m.c1.x * m.c0.y) / d⟩⟩

/-- row-major multiply, `out[i] = dot(row i, v)`, as used on the matrix the
primaries builder returns. Modelled from the spec, section 4.1. -/
def RowMatrix.mul_vec (m : RowMatrix) (v : V3) : V3 :=
  ⟨m.m00 * v.x + m.m01 * v.y + m.m02 * v.z,
   m.m10 * v.x + m.m11 * v.y + m.m12 * v.z,
   m.m20 * v.x + m.m21 * v.y + m.m22 * v.z⟩

/-- the transfer curve enumeration. The type itself lives in the absent
`src/color/transfer.rs`, but its variant set is fixed by the exhaustive
matches of `src/color/mod.rs` and by spec section 3. -/
inductive Transfer where
  | Bt709
  | Bt470M
  | Bt601
  | Smpte240
  | Linear
  | Srgb
  | Bt2020_10bit
  | Bt2020_12bit
  | Smpte2084
  | Bt2100Pq
  | Bt2100Hlg
  | Bt2100Scene
deriving DecidableEq, Repr

/-- Modelled from the spec: `src/color/transfer.rs`, declaring the fourteen
scalar curve functions that `src/color/mod.rs` dispatches to, is not under
src. The spec (section 4.3) fixes only their shape, a scalar
encoded-to-optical and a scalar optical-to-encoded function per implemented
standard, so the curves are taken as an arbitrary assignment of scalar
functions and the dispatch code is embedded over any such assignment. -/
structure TransferCurves where
  transfer_eo_bt709 : ℚ → ℚ
  transfer_eo_bt470m : ℚ → ℚ
  transfer_eo_bt601 : ℚ → ℚ
  transfer_eo_smpte240 : ℚ → ℚ
  transfer_eo_srgb : ℚ → ℚ
  transfer_eo_bt2020_10b : ℚ → ℚ
  transfer_eo_smpte2084 : ℚ → ℚ
  transfer_oe_bt709 : ℚ → ℚ
  transfer_oe_bt470m : ℚ → ℚ
  transfer_oe_bt601 : ℚ → ℚ
  transfer_oe_smpte240 : ℚ → ℚ
  transfer_oe_srgb : ℚ → ℚ
  transfer_oe_bt2020_10b : ℚ → ℚ
  transfer_oe_smpte2084 : ℚ → ℚ

/-- a concrete curve assignment (the identity in every slot), used only to
evaluate the embedding at concrete inputs. -/
def defaultCurves : TransferCurves where
  transfer_eo_bt709 := id
  transfer_eo_bt470m := id
  transfer_eo_bt601 := id
  transfer_eo_smpte240 := id
  transfer_eo_srgb := id
  transfer_eo_bt2020_10b := id
  transfer_eo_smpte2084 := id
  transfer_oe_bt709 := id
  transfer_oe_bt470m := id
  transfer_oe_bt601 := id
  transfer_oe_smpte240 := id
  transfer_oe_srgb := id
  transfer_oe_bt2020_10b := id
  transfer_oe_smpte2084 := id

/-- the per-pixel body shared by all dispatch arms of `src/color/mod.rs`:
destructure `[r, g, b, a]`, map the scalar curve over `[r, g, b]`, pass `a`
through. -/
def mapRgb (f : ℚ → ℚ) (v : Pix) : Pix :=
  ⟨f v.r, f v.g, f v.b, v.a⟩

/-- `Transfer::to_optical_display`, src/color/mod.rs lines 223-257. The four
FIXME arms hit `todo!()`, embedded as `panicked`. The extra `c` argument is
the curve assignment of `TransferCurves`. -/
def Transfer.to_optical_display (c : TransferCurves) (t : Transfer) (value : Pix) :
    RunResult Pix :=
  match t with
  | .Bt709 => .ok (mapRgb c.transfer_eo_bt709 value)
  | .Bt470M => .ok (mapRgb c.transfer_eo_bt470m value)
  | .Bt601 => .ok (mapRgb c.transfer_eo_bt601 value)
  | .Smpte240 => .ok (mapRgb c.transfer_eo_smpte240 value)
  | .Linear => .ok value
  | .Srgb => .ok (mapRgb c.transfer_eo_srgb value)
  | .Bt2020_10bit => .ok (mapRgb c.transfer_eo_bt2020_10b value)
  | .Bt2020_12bit => .panicked
  | .Smpte2084 => .ok (mapRgb c.transfer_eo_smpte2084 value)
  | .Bt2100Pq => .panicked
  | .Bt2100Hlg => .panicked
  | .Bt2100Scene => .panicked

/-- `Transfer::from_optical_display`, src/color/mod.rs lines 259-293. -/
def Transfer.from_optical_display (c : TransferCurves) (t : Transfer) (value : Pix) :
    RunResult Pix :=
  match t with
  | .Bt709 => .ok (mapRgb c.transfer_oe_bt709 value)
  | .Bt470M => .ok (mapRgb c.transfer_oe_bt470m value)
  | .Bt601 => .ok (mapRgb c.transfer_oe_bt601 value)
  | .Smpte240 => .ok (mapRgb c.transfer_oe_smpte240 value)
  | .Linear => .ok value
  | .Srgb => .ok (mapRgb c.transfer_oe_srgb value)
  | .Bt2020_10bit => .ok (mapRgb c.transfer_oe_bt2020_10b value)
  | .Bt2020_12bit => .panicked
  | .Smpte2084 => .ok (mapRgb c.transfer_oe_smpte2084 value)
  | .Bt2100Pq => .panicked
  | .Bt2100Hlg => .panicked
  | .Bt2100Scene => .panicked

/-- the loop body generated for the out-of-place slice conversion: iterate the
input zipped with the output buffer, overwriting the zipped prefix of the
output; output entries beyond the input length keep their old contents (the
`zip` of the source stops at the shorter slice). -/
def zipConvert (f : ℚ → ℚ) (texels pixels : List Pix) : List Pix :=
  List.zipWith (fun texel _ => mapRgb f texel) texels pixels
    ++ pixels.drop texels.length

/-- `Transfer::to_optical_display_slice`, src/color/mod.rs lines 295-327. The
`Linear` arm is `copy_from_slice`, which panics when the two buffers differ in
length; the generated arms cover exactly six variants and every other variant
returns `none`. The returned function takes the input buffer and the previous
contents of the output buffer and returns the new output buffer. -/
def Transfer.to_optical_display_slice (c : TransferCurves) (t : Transfer) :
    Option (List Pix → List Pix → RunResult (List Pix)) :=
  match t with
  | .Linear => some (fun x y => if x.length = y.length then .ok x else .panicked)
  | .Bt709 => some (fun texels pixels => .ok (zipConvert c.transfer_eo_bt709 texels pixels))
  | .Bt470M => some (fun texels pixels => .ok (zipConvert c.transfer_eo_bt470m texels pixels))
  | .Bt601 => some (fun texels pixels => .ok (zipConvert c.transfer_eo_bt601 texels pixels))
  | .Smpte240 => some (fun texels pixels => .ok (zipConvert c.transfer_eo_smpte240 texels pixels))
  | .Srgb => some (fun texels pixels => .ok (zipConvert c.transfer_eo_srgb texels pixels))
  | .Bt2020_10bit => some (fun texels pixels => .ok (zipConvert c.transfer_eo_bt2020_10b texels pixels))
  | _ => none

/-- `Transfer::to_optical_display_slice_inplace`, src/color/mod.rs lines
329-361. In-place: the returned function maps the buffer to its new
contents; the `Linear` arm does nothing. -/
def Transfer.to_optical_display_slice_inplace (c : TransferCurves) (t : Transfer) :
    Option (List Pix → List Pix) :=
  match t with
  | .Linear => some (fun pixels => pixels)
  | .Bt709 => some (fun pixels => pixels.map (mapRgb c.transfer_eo_bt709))
  | .Bt470M => some (fun pixels => pixels.map (mapRgb c.transfer_eo_bt470m))
  | .Bt601 => some (fun pixels => pixels.map (mapRgb c.transfer_eo_bt601))
  | .Smpte240 => some (fun pixels => pixels.map (mapRgb c.transfer_eo_smpte240))
  | .Srgb => some (fun pixels => pixels.map (mapRgb c.transfer_eo_srgb))
  | .Bt2020_10bit => some (fun pixels => pixels.map (mapRgb c.transfer_eo_bt2020_10b))
  | _ => none

/-- `Transfer::from_optical_display_slice`, src/color/mod.rs lines 363-395.
In-place, with the optical-to-encoded curves; the `Linear` arm does
nothing. -/
def Transfer.from_optical_display_slice (c : TransferCurves) (t : Transfer) :
    Option (List Pix → List Pix) :=
  match t with
  | .Linear => some (fun pixels => pixels)
  | .Bt709 => some (fun pixels => pixels.map (mapRgb c.transfer_oe_bt709))
  | .Bt470M => some (fun pixels => pixels.map (mapRgb c.transfer_oe_bt470m))
  | .Bt601 => some (fun pixels => pixels.map (mapRgb c.transfer_oe_bt601))
  | .Smpte240 => some (fun pixels => pixels.map (mapRgb c.transfer_oe_smpte240))
  | .Srgb => some (fun pixels => pixels.map (mapRgb c.transfer_oe_srgb))
  | .Bt2020_10bit => some (fun pixels => pixels.map (mapRgb c.transfer_oe_bt2020_10b))
  | _ => none

/-- `Whitepoint`, src/color/mod.rs lines 201-215. -/
inductive Whitepoint where
  | A
  | B
  | C
  | D50
  | D55
  | D65
  | D75
  | E
  | F2
  | F7
  | F11
deriving DecidableEq, Repr

/-- `Whitepoint::to_xyz`, src/color/mod.rs lines 398-415. -/
def Whitepoint.to_xyz (self : Whitepoint) : V3 :=
  match self with
  | .A => ⟨1.09850, 1.00000, 0.35585⟩
  | .B => ⟨0.99072, 1.00000, 0.85223⟩
  | .C => ⟨0.98074, 1.00000, 1.18232⟩
  | .D50 => ⟨0.96422, 1.00000, 0.82521⟩
  | .D55 => ⟨0.95682, 1.00000, 0.92149⟩
  | .D65 => ⟨0.95047, 1.00000, 1.08883⟩
  | .D75 => ⟨0.94972, 1.00000, 1.22638⟩
  | .E => ⟨1.00000, 1.00000, 1.00000⟩
  | .F2 => ⟨0.99186, 1.00000, 0.67393⟩
  | .F7 => ⟨0.95041, 1.00000, 1.08747⟩
  | .F11 => ⟨1.00962, 1.00000, 0.64350⟩

/-- `Primaries`, src/color/mod.rs lines 104-128. -/
inductive Primaries where
  | Xyz
  | Bt601_525
  | Bt601_625
  | Bt709
  | Smpte240
  | Bt2020
  | Bt2100
deriving DecidableEq, Repr

/-- the inner closure `xyz` of `Primaries::to_xyz`: a column of CIE XYZ
intensities for a chromaticity pair, `[x / y, 1.0, (1.0 - x - y) / y]`. -/
def xyzOf (p : ℚ × ℚ) : V3 :=
  ⟨p.1 / p.2, 1, (1 - p.1 - p.2) / p.2⟩

/-- the tail of `Primaries::to_xyz` after the chromaticity lookup: invert the
unweighted column matrix `N`, solve `s = N⁻¹ · W` for the whitepoint
tristimulus `W`, and return the row-major matrix with columns
`s[i] * xyz_i`. -/
def weighted (xyz_r xyz_g xyz_b w : V3) : RowMatrix :=
  let n1 := (ColMatrix.mk xyz_r xyz_g xyz_b).inv
  let s := n1.mul_vec w
  RowMatrix.mk
    (s.x * xyz_r.x) (s.y * xyz_g.x) (s.z * xyz_b.x)
    (s.x * xyz_r.y) (s.y * xyz_g.y) (s.z * xyz_b.y)
    (s.x * xyz_r.z) (s.y * xyz_g.z) (s.z * xyz_b.z)

/-- `Primaries::to_xyz`, src/color/mod.rs lines 428-467. The `Xyz` arm of the
chromaticity lookup is `todo!()`, embedded as `panicked`; every other arm
builds the van Kries weighted matrix (`weighted`, `xyzOf`) from its
chromaticity table entry and the whitepoint tristimulus, exactly as the
source does. -/
def Primaries.to_xyz (self : Primaries) (white : Whitepoint) : RunResult RowMatrix :=
  match self with
  | .Bt601_525 | .Smpte240 =>
    .ok (weighted (xyzOf (0.63, 0.34)) (xyzOf (0.31, 0.595)) (xyzOf (0.155, 0.07))
      white.to_xyz)
  | .Bt601_625 =>
    .ok (weighted (xyzOf (0.64, 0.33)) (xyzOf (0.29, 0.6)) (xyzOf (0.15, 0.06))
      white.to_xyz)
  | .Bt709 =>
    .ok (weighted (xyzOf (0.64, 0.33)) (xyzOf (0.30, 0.60)) (xyzOf (0.15, 0.06))
      white.to_xyz)
  | .Bt2020 | .Bt2100 =>
    .ok (weighted (xyzOf (0.708, 0.292)) (xyzOf (0.170, 0.797)) (xyzOf (0.131, 0.046))
      white.to_xyz)
  | .Xyz => .panicked

/-- `Luminance`, src/color/mod.rs lines 89-99. -/
inductive Luminance where
  | Sdr
  | Hdr
  | AdobeRgb
  | DciP3
deriving DecidableEq, Repr

/-- `RgbColorSpace`, src/color/rgb.rs lines 9-14. -/
structure RgbColorSpace where
  primary : Primaries
  transfer : Transfer
  whitepoint : Whitepoint
  luminance : Luminance
deriving DecidableEq, Repr

/-- `RgbColorSpace::SRGB`, src/color/rgb.rs lines 16-21. -/
def RgbColorSpace.SRGB : RgbColorSpace :=
  { luminance := .Sdr, primary := .Bt709, transfer := .Srgb, whitepoint := .D65 }

/-- `RgbColorSpace::BT709_RGB`, src/color/rgb.rs lines 23-28. -/
def RgbColorSpace.BT709_RGB : RgbColorSpace :=
  { luminance := .Sdr, primary := .Bt709, transfer := .Bt709, whitepoint := .D65 }

/-- the `Rgb` pixel container of the external `rgb` crate: three channels. -/
structure Rgb (α : Type) where
  r : α
  g : α
  b : α
deriving DecidableEq, Repr

/-- `<Rgb<u16> as PixelConvert<Rgb<u8>>>::pixel_convert`, src/impls/rgb.rs
lines 13-20, the only implementation of the trait in the repository. Its body
is `todo!()`, so every call panics. The channel payloads are machine integers
on which no arithmetic occurs, embedded as `Nat`. -/
def pixel_convert (pixel : Rgb Nat)
    (source_colorspace destination_colorspace : RgbColorSpace) :
    RunResult (Rgb Nat) :=
  .panicked

/-- the scalar encoded-to-optical curve each arm of
`Transfer::to_optical_display` applies per channel; `Linear` applies none
(identity), and the four unimplemented arms never apply a curve at all (the
call panics), so their slot here is arbitrary (`id`). -/
def eoScalar (c : TransferCurves) : Transfer → ℚ → ℚ
  | .Bt709 => c.transfer_eo_bt709
  | .Bt470M => c.transfer_eo_bt470m
  | .Bt601 => c.transfer_eo_bt601
  | .Smpte240 => c.transfer_eo_smpte240
  | .Linear => id
  | .Srgb => c.transfer_eo_srgb
  | .Bt2020_10bit => c.transfer_eo_bt2020_10b
  | .Smpte2084 => c.transfer_eo_smpte2084
  | .Bt2020_12bit | .Bt2100Pq | .Bt2100Hlg | .Bt2100Scene => id

/-- the scalar optical-to-encoded curve each arm of
`Transfer::from_optical_display` applies per channel, with the same
conventions as `eoScalar`. -/
def oeScalar (c : TransferCurves) : Transfer → ℚ → ℚ
  | .Bt709 => c.transfer_oe_bt709
  | .Bt470M => c.transfer_oe_bt470m
  | .Bt601 => c.transfer_oe_bt601
  | .Smpte240 => c.transfer_oe_smpte240
  | .Linear => id
  | .Srgb => c.transfer_oe_srgb
  | .Bt2020_10bit => c.transfer_oe_bt2020_10b
  | .Smpte2084 => c.transfer_oe_smpte2084
  | .Bt2020_12bit | .Bt2100Pq | .Bt2100Hlg | .Bt2100Scene => id

/-- on equal-length buffers, the zipped out-of-place loop overwrites the whole
output buffer with the per-pixel image of the input, in order. -/
theorem zipConvert_eq_map (f : ℚ → ℚ) :
    ∀ ts ps : List Pix, ts.length = ps.length → zipConvert f ts ps = ts.map (mapRgb f)
  | [], [], _ => rfl
  | [], _ :: _, h => absurd h (by simp)
  | _ :: _, [], h => absurd h (by simp)
  | t :: ts, p :: ps, h => by
    have h' : ts.length = ps.length := by simpa using h
    simpa [zipConvert, List.zipWith, List.drop] using zipConvert_eq_map f ts ps h'

/-- mapping a per-pixel conversion and then wrapping in `ok` is mapping the
wrapped conversion. -/
theorem map_ok_mapRgb (f : ℚ → ℚ) (l : List Pix) :
    l.map (fun v => RunResult.ok (mapRgb f v)) = (l.map (mapRgb f)).map RunResult.ok := by
  simp [List.map_map]

/-- the van Kries construction preserves its whitepoint: when the unweighted
column matrix is non-singular, the weighted matrix maps the equal-RGB vector
[1,1,1] back to the tristimulus the scale weights were solved for. -/
theorem weighted_mul_vec_one (u v t w : V3)
    (hdet : (ColMatrix.mk u v t).det ≠ 0) :
    (weighted u v t w).mul_vec ⟨1, 1, 1⟩ = w := by
  obtain ⟨ux, uy, uz⟩ := u
  obtain ⟨vx, vy, vz⟩ := v
  obtain ⟨tx, ty, tz⟩ := t
  obtain ⟨wx, wy, wz⟩ := w
  simp only [ColMatrix.det] at hdet
  simp only [weighted, ColMatrix.inv, ColMatrix.det, ColMatrix.mul_vec,
    RowMatrix.mul_vec, V3.mk.injEq]
  refine ⟨?_, ?_, ?_⟩ <;>
    · field_simp
      ring

/-- C1 counterexample: invoking `Transfer::Bt2100Pq.to_optical_display` on the
zero pixel panics (the `todo!()` arm), an uncontrolled abort, contradicting
the claim that a NotImplemented outcome is returned to the caller without a
panic. -/
theorem c1_counterexample :
    Transfer.to_optical_display defaultCurves .Bt2100Pq ⟨0, 0, 0, 0⟩ = .panicked := rfl

/-- C1 (amended): for the four unimplemented transfer variants
(`Bt2020_12bit`, `Bt2100Pq`, `Bt2100Hlg`, `Bt2100Scene`),
`to_optical_display` and `from_optical_display` panic via `todo!()` for every
pixel and every curve assignment: the outcome is a distinguishable
"not yet implemented" panic rather than a returned error value, and no
numeric result is ever produced (so never silently wrong numbers). -/
theorem c1_unimplemented_transfers_panic (c : TransferCurves) (v : Pix) :
    Transfer.to_optical_display c .Bt2020_12bit v = .panicked ∧
    Transfer.to_optical_display c .Bt2100Pq v = .panicked ∧
    Transfer.to_optical_display c .Bt2100Hlg v = .panicked ∧
    Transfer.to_optical_display c .Bt2100Scene v = .panicked ∧
    Transfer.from_optical_display c .Bt2020_12bit v = .panicked ∧
    Transfer.from_optical_display c .Bt2100Pq v = .panicked ∧
    Transfer.from_optical_display c .Bt2100Hlg v = .panicked ∧
    Transfer.from_optical_display c .Bt2100Scene v = .panicked :=
  ⟨rfl, rfl, rfl, rfl, rfl, rfl, rfl, rfl⟩

/-- C2: for every supported `Primaries` variant (all but the unimplemented
`Xyz` placeholder) and every `Whitepoint`, the matrix built by
`Primaries::to_xyz` maps the equal-RGB vector [1,1,1] exactly (in the
rational idealization, hence within any epsilon in f32) to the whitepoint's
tristimulus value `Whitepoint::to_xyz`. -/
theorem c2_whitepoint_preservation (p : Primaries) (w : Whitepoint) (h : p ≠ .Xyz) :
    (Primaries.to_xyz p w).map (fun m => m.mul_vec ⟨1, 1, 1⟩) =
      .ok (Whitepoint.to_xyz w) := by
  cases p
  case Xyz => exact absurd rfl h
  all_goals
    (simp only [Primaries.to_xyz, RunResult.map]
     exact congrArg RunResult.ok
       (weighted_mul_vec_one _ _ _ _ (by norm_num [ColMatrix.det, xyzOf])))

/-- C2 witness at `Bt709`, `D65`. -/
theorem c2_witness :
    Primaries.Bt709 ≠ Primaries.Xyz ∧
    (Primaries.to_xyz .Bt709 .D65).map (fun m => m.mul_vec ⟨1, 1, 1⟩) =
      .ok (Whitepoint.to_xyz .D65) :=
  ⟨by decide, c2_whitepoint_preservation .Bt709 .D65 (by decide)⟩

/-- C4: whenever the vectorized lookups return buffer functions, those
functions agree with the scalar per-pixel conversions applied independently
to each element in order: for the out-of-place direction on equal-length
buffers the returned function succeeds and the per-element scalar results are
exactly its output (in order), and likewise for the in-place direction. -/
theorem c4_buffer_equivalence (c : TransferCurves) (t : Transfer)
    (f : List Pix → List Pix → RunResult (List Pix)) (g : List Pix → List Pix)
    (texels pixels : List Pix)
    (hlen : texels.length = pixels.length)
    (hf : Transfer.to_optical_display_slice c t = some f)
    (hg : Transfer.from_optical_display_slice c t = some g) :
    (∃ out, f texels pixels = .ok out ∧
      texels.map (Transfer.to_optical_display c t) = out.map RunResult.ok) ∧
    pixels.map (Transfer.from_optical_display c t) = (g pixels).map RunResult.ok := by
  cases t
  case Bt2020_12bit => exact Option.noConfusion hf
  case Smpte2084 => exact Option.noConfusion hf
  case Bt2100Pq => exact Option.noConfusion hf
  case Bt2100Hlg => exact Option.noConfusion hf
  case Bt2100Scene => exact Option.noConfusion hf
  case Linear =>
    injection hf with hf1
    injection hg with hg1
    subst hf1
    subst hg1
    refine ⟨⟨texels, ?_, rfl⟩, rfl⟩
    simp [hlen]
  all_goals
    (injection hf with hf1
     injection hg with hg1
     subst hf1
     subst hg1
     refine ⟨⟨_, rfl, ?_⟩, map_ok_mapRgb _ _⟩
     rw [zipConvert_eq_map _ _ _ hlen]
     exact map_ok_mapRgb _ _)

/-- C4 witness: `Bt709` on concrete one-element buffers. -/
theorem c4_witness :
    ([(⟨1, 2, 3, 4⟩ : Pix)].length = [(⟨5, 6, 7, 8⟩ : Pix)].length) ∧
    Transfer.to_optical_display_slice defaultCurves .Bt709 =
      some (fun texels pixels =>
        .ok (zipConvert defaultCurves.transfer_eo_bt709 texels pixels)) ∧
    Transfer.from_optical_display_slice defaultCurves .Bt709 =
      some (fun pixels => pixels.map (mapRgb defaultCurves.transfer_oe_bt709)) ∧
    ((∃ out,
        RunResult.ok (zipConvert defaultCurves.transfer_eo_bt709
          [(⟨1, 2, 3, 4⟩ : Pix)] [(⟨5, 6, 7, 8⟩ : Pix)]) = .ok out ∧
        [(⟨1, 2, 3, 4⟩ : Pix)].map (Transfer.to_optical_display defaultCurves .Bt709) =
          out.map RunResult.ok) ∧
      [(⟨5, 6, 7, 8⟩ : Pix)].map (Transfer.from_optical_display defaultCurves .Bt709) =
        ([(⟨5, 6, 7, 8⟩ : Pix)].map (mapRgb defaultCurves.transfer_oe_bt709)).map
          RunResult.ok) :=
  ⟨rfl, rfl, rfl,
    c4_buffer_equivalence defaultCurves .Bt709 _ _
      [(⟨1, 2, 3, 4⟩ : Pix)] [(⟨5, 6, 7, 8⟩ : Pix)] rfl rfl rfl⟩

/-- C5 counterexample: the chromaticity lookup for the placeholder `Xyz`
variant is `todo!()`: `Primaries::to_xyz(Xyz, D65)` panics instead of
returning a matrix, contradicting the claim that the lookup is total over the
closed enumeration and never aborts. -/
theorem c5_counterexample :
    Primaries.to_xyz .Xyz .D65 = .panicked := rfl

/-- C5 (amended): for every `Primaries` variant other than the placeholder
`Xyz` and every `Whitepoint`, `Primaries::to_xyz` resolves the chromaticity
triple and returns a matrix without aborting; for `Xyz` the lookup is
unimplemented and the call panics via `todo!()`. -/
theorem c5_to_xyz_totality (p : Primaries) (w : Whitepoint) :
    (p = .Xyz ∧ Primaries.to_xyz p w = .panicked) ∨
    (∃ m, Primaries.to_xyz p w = .ok m) := by
  cases p
  · exact .inl ⟨rfl, rfl⟩
  all_goals exact .inr ⟨_, rfl⟩

/-- C6 counterexample: converting the pixel (0,0,0) from the sRGB descriptor
to the identical sRGB descriptor through the only `pixel_convert`
implementation panics (`todo!()`), returning no pixel at all, contradicting
the claim that the original pixel is returned unchanged. -/
theorem c6_counterexample :
    pixel_convert ⟨0, 0, 0⟩ RgbColorSpace.SRGB RgbColorSpace.SRGB = .panicked := rfl

/-- C6 (amended): the only `PixelConvert` implementation in the repository
(`Rgb<u8>` to `Rgb<u16>`) is an unimplemented stub: `pixel_convert` panics
via `todo!()` for every pixel and every pair of color-space descriptors,
including identical source and destination; no identity behaviour exists. -/
theorem c6_pixel_convert_stub (p : Rgb Nat) (src dst : RgbColorSpace) :
    pixel_convert p src dst = .panicked := rfl

/-- C7: the `Linear` transfer is the identity in both scalar directions for
every pixel, and its vectorized slice forms are identities as well: the
out-of-place form copies the input over an equal-length output buffer, and
the in-place forms leave the buffer unchanged. -/
theorem c7_linear_identity (c : TransferCurves) (v : Pix) (ts ps : List Pix)
    (h : ts.length = ps.length) :
    Transfer.to_optical_display c .Linear v = .ok v ∧
    Transfer.from_optical_display c .Linear v = .ok v ∧
    (∃ f, Transfer.to_optical_display_slice c .Linear = some f ∧ f ts ps = .ok ts) ∧
    (∃ g, Transfer.from_optical_display_slice c .Linear = some g ∧ g ps = ps) ∧
    (∃ k, Transfer.to_optical_display_slice_inplace c .Linear = some k ∧ k ps = ps) := by
  refine ⟨rfl, rfl, ⟨_, rfl, ?_⟩, ⟨_, rfl, rfl⟩, ⟨_, rfl, rfl⟩⟩
  simp [h]

/-- C7 witness on concrete one-element buffers. -/
theorem c7_witness :
    ([(⟨1, 2, 3, 4⟩ : Pix)].length = [(⟨0, 0, 0, 0⟩ : Pix)].length) ∧
    (Transfer.to_optical_display defaultCurves .Linear ⟨1, 2, 3, 4⟩ = .ok ⟨1, 2, 3, 4⟩ ∧
     Transfer.from_optical_display defaultCurves .Linear ⟨1, 2, 3, 4⟩ = .ok ⟨1, 2, 3, 4⟩ ∧
     (∃ f, Transfer.to_optical_display_slice defaultCurves .Linear = some f ∧
        f [(⟨1, 2, 3, 4⟩ : Pix)] [(⟨0, 0, 0, 0⟩ : Pix)] = .ok [(⟨1, 2, 3, 4⟩ : Pix)]) ∧
     (∃ g, Transfer.from_optical_display_slice defaultCurves .Linear = some g ∧
        g [(⟨0, 0, 0, 0⟩ : Pix)] = [(⟨0, 0, 0, 0⟩ : Pix)]) ∧
     (∃ k, Transfer.to_optical_display_slice_inplace defaultCurves .Linear = some k ∧
        k [(⟨0, 0, 0, 0⟩ : Pix)] = [(⟨0, 0, 0, 0⟩ : Pix)])) :=
  ⟨rfl, c7_linear_identity defaultCurves ⟨1, 2, 3, 4⟩ _ _ rfl⟩

/-- C8: whenever `to_optical_display` or `from_optical_display` returns a
pixel, that pixel is obtained by applying the variant's scalar curve
(`eoScalar` resp. `oeScalar`, which depend only on the variant and the curve
assignment) independently to each of the R, G, B channels, while the alpha
channel is the input's alpha unchanged: each output color channel depends
only on the corresponding input channel. -/
theorem c8_channelwise_alpha_passthrough (c : TransferCurves) (t : Transfer)
    (r g b a : ℚ) (q q2 : Pix)
    (hto : Transfer.to_optical_display c t ⟨r, g, b, a⟩ = .ok q)
    (hfrom : Transfer.from_optical_display c t ⟨r, g, b, a⟩ = .ok q2) :
    q = ⟨eoScalar c t r, eoScalar c t g, eoScalar c t b, a⟩ ∧
    q2 = ⟨oeScalar c t r, oeScalar c t g, oeScalar c t b, a⟩ := by
  cases t <;> first
    | exact RunResult.noConfusion hto
    | · constructor
        · injection hto with h1
          exact h1.symm
        · injection hfrom with h2
          exact h2.symm

/-- C8 witness at `Srgb` with the identity curve assignment. -/
theorem c8_witness :
    Transfer.to_optical_display defaultCurves .Srgb ⟨1, 2, 3, 4⟩ = .ok ⟨1, 2, 3, 4⟩ ∧
    Transfer.from_optical_display defaultCurves .Srgb ⟨1, 2, 3, 4⟩ = .ok ⟨1, 2, 3, 4⟩ ∧
    ((⟨1, 2, 3, 4⟩ : Pix) =
        ⟨eoScalar defaultCurves .Srgb 1, eoScalar defaultCurves .Srgb 2,
         eoScalar defaultCurves .Srgb 3, 4⟩ ∧
     (⟨1, 2, 3, 4⟩ : Pix) =
        ⟨oeScalar defaultCurves .Srgb 1, oeScalar defaultCurves .Srgb 2,
         oeScalar defaultCurves .Srgb 3, 4⟩) :=
  ⟨rfl, rfl,
    c8_channelwise_alpha_passthrough defaultCurves .Srgb 1 2 3 4 _ _ rfl rfl⟩

/-- C9: `Primaries::to_xyz(Bt709, D65)` returns the standard published sRGB
RGB-to-XYZ matrix to at least 3 decimal places: every entry is within 0.0005
of the published value, in particular the first row is approximately
[0.4124, 0.3576, 0.1805]. -/
theorem c9_bt709_d65_matrix :
    ∃ m, Primaries.to_xyz .Bt709 .D65 = .ok m ∧
      |m.m00 - 0.4124| < 0.0005 ∧ |m.m01 - 0.3576| < 0.0005 ∧ |m.m02 - 0.1805| < 0.0005 ∧
      |m.m10 - 0.2126| < 0.0005 ∧ |m.m11 - 0.7152| < 0.0005 ∧ |m.m12 - 0.0722| < 0.0005 ∧
      |m.m20 - 0.0193| < 0.0005 ∧ |m.m21 - 0.1192| < 0.0005 ∧ |m.m22 - 0.9505| < 0.0005 := by
  refine ⟨_, rfl, ?_, ?_, ?_, ?_, ?_, ?_, ?_, ?_, ?_⟩ <;>
    · rw [abs_sub_lt_iff]
      simp only [weighted, xyzOf, Whitepoint.to_xyz, ColMatrix.inv, ColMatrix.det,
        ColMatrix.mul_vec]
      constructor <;> norm_num

/-- C10: `Bt601_525` and `Smpte240` share one chromaticity table entry, as do
`Bt2020` and `Bt2100`, so for every whitepoint each pair yields exactly the
same matrix from `Primaries::to_xyz`. -/
theorem c10_shared_chromaticity_tables (w : Whitepoint) :
    Primaries.to_xyz .Bt601_525 w = Primaries.to_xyz .Smpte240 w ∧
    Primaries.to_xyz .Bt2020 w = Primaries.to_xyz .Bt2100 w :=
  ⟨rfl, rfl⟩

end Pixconv
